import Mathlib

/-!
Shallow embedding of the control-channel / video-ingestion core of the
TelloController repository, translated from `src/tools/legacy_web_ui.py`
(the richer of the two near-duplicate implementations; `src/tello_ui.py`
duplicates `TelloController` verbatim).

Modelling conventions:
* All process-wide mutable state (the global `log_lines` list, the
  `TelloController` socket/running fields, the `AppState` command-mode
  flag, the `VideoStreamer` fields) is gathered into one `World` record
  that every operation threads explicitly.
* Network and library effects are decided by an `Oracle`: whether
  `socket.bind` succeeds, whether the n-th `sendto` attempt succeeds
  (indexed by `World.attempts`), and whether `cv2` is importable.
* A Python exception escaping a function is modelled as `Except.error`
  (or `Option String` carrying the exception text when the state change
  performed before the raise must stay observable).
* `append_log` prefixes a wall-clock `[HH:MM:SS]` timestamp to the
  message; wall-clock time is outside the embedding, so a log entry is
  modelled as the message text itself.  No claim depends on timestamps.
* Locks guard the shared state in the source; the embedding is
  sequential, so lock acquisition has no observable effect.
-/

/-- The fixed move distance `MOVE_DISTANCE_CM = 50` from the source. -/
def MOVE_DISTANCE_CM : Nat := 50

/-- State owned by `TelloController` (`legacy_web_ui.py` lines 74-127):
`sock` records whether the datagram socket is open and bound,
`running` is the receiver-loop flag, and `receiver_threads` counts the
receiver threads spawned (the source spawns one per successful bind). -/
structure ChannelState where
  sock : Bool
  running : Bool
  receiver_threads : Nat
deriving DecidableEq

/-- State owned by `VideoStreamer` (`legacy_web_ui.py` lines 148-217). -/
structure VideoState where
  running : Bool
  stream_enabled : Bool
  latest_frame : Option (List Nat)
deriving DecidableEq

/-- The process-wide mutable state of `legacy_web_ui.py`: the global
`log_lines` list, the datagrams actually transmitted so far (`sent`),
the number of `sendto` attempts made so far (`attempts`, used to index
the oracle), the controller, the `AppState` command-mode flag and the
video streamer. -/
structure World where
  log : List String
  sent : List String
  attempts : Nat
  chan : ChannelState
  command_mode : Bool
  video : VideoState
deriving DecidableEq

/-- Environment decisions: `bindOk` tells whether `socket.bind` succeeds
(`bindErr` is the `OSError` text when it does not), `sendOk n` tells
whether the n-th `sendto` attempt succeeds (`sendErr n` the `OSError`
text when it does not), and `cv2Available` whether `import cv2`
succeeded. -/
structure Oracle where
  bindOk : Bool
  bindErr : String
  sendOk : Nat → Bool
  sendErr : Nat → String
  cv2Available : Bool

/-- `append_log` (`legacy_web_ui.py` lines 39-43): appends one line to
the global `log_lines` (timestamp prefix omitted, see the header). -/
def append_log (message : String) (w : World) : World :=
  { w with log := w.log ++ [message] }

namespace TelloController

/-- `TelloController.start` (lines 83-94): no-op when a socket already
exists; otherwise bind the socket (which may raise `OSError`, returned
as `some` exception text), flip `running`, spawn the receiver thread
and log readiness. -/
def start (o : Oracle) (w : World) : World × Option String :=
  if w.chan.sock then (w, none)
  else if o.bindOk then
    (append_log "UDP socket ready on port 9000."
      { w with chan := { sock := true, running := true,
                         receiver_threads := w.chan.receiver_threads + 1 } },
     none)
  else (w, some o.bindErr)

/-- `TelloController.send_command` (lines 118-127): calls `start()` lazily
*outside* the `try` block, so a bind failure raises to the caller;
inside the `try`, a `sendto` failure is converted to `false` plus a
`Send failed: ...` log line. -/
def send_command (o : Oracle) (command : String) (w : World) :
    World × Except String Bool :=
  match start o w with
  | (w1, some exc) => (w1, .error exc)
  | (w1, none) =>
    if o.sendOk w1.attempts then
      (append_log (">>> " ++ command)
        { w1 with attempts := w1.attempts + 1, sent := w1.sent ++ [command] },
       .ok true)
    else
      (append_log ("Send failed: " ++ o.sendErr w1.attempts)
        { w1 with attempts := w1.attempts + 1 },
       .ok false)

end TelloController

/-- One iteration's worth of input to the receiver loop `_listen`
(lines 106-116): a `socket.timeout`, an `OSError`, or a received
datagram payload (raw bytes). -/
inductive RecvEvent where
  | timeout
  | os_error
  | datagram (payload : List Nat)
deriving DecidableEq

/-- True for UTF-8 continuation bytes `0x80..0xBF`. -/
def contByte (b : Nat) : Bool := 0x80 ≤ b && b ≤ 0xBF

/-- The error action of Python's `bytes.decode("utf-8", errors=...)`:
`none` models `errors="ignore"` (emit nothing), `some c` models
`errors="replace"` (emit the placeholder `c`). -/
def errEmit : Option Char → List Char
  | none => []
  | some c => [c]

/-- Worker for the UTF-8 decoder.  `fuel` is a step bound used only to
make the recursion structural: every step consumes at least one input
byte, so starting it with `fuel = input length` never exhausts it. -/
def utf8_decode_go (err : Option Char) : Nat → List Nat → List Char
  | 0, _ => []
  | _, [] => []
  | fuel + 1, b :: bs =>
    if b < 0x80 then
      Char.ofNat b :: utf8_decode_go err fuel bs
    else if 0xC2 ≤ b && b ≤ 0xDF then
      match bs with
      | [] => errEmit err
      | b1 :: rest =>
        if contByte b1 then
          Char.ofNat ((b - 0xC0) * 0x40 + (b1 - 0x80)) :: utf8_decode_go err fuel rest
        else errEmit err ++ utf8_decode_go err fuel bs
    else if 0xE0 ≤ b && b ≤ 0xEF then
      match bs with
      | [] => errEmit err
      | b1 :: rest1 =>
        if (if b == 0xE0 then 0xA0 ≤ b1 && b1 ≤ 0xBF
            else if b == 0xED then 0x80 ≤ b1 && b1 ≤ 0x9F
            else contByte b1) then
          match rest1 with
          | [] => errEmit err
          | b2 :: rest2 =>
            if contByte b2 then
              Char.ofNat ((b - 0xE0) * 0x1000 + (b1 - 0x80) * 0x40 + (b2 - 0x80))
                :: utf8_decode_go err fuel rest2
            else errEmit err ++ utf8_decode_go err fuel rest1
        else errEmit err ++ utf8_decode_go err fuel bs
    else if 0xF0 ≤ b && b ≤ 0xF4 then
      match bs with
      | [] => errEmit err
      | b1 :: rest1 =>
        if (if b == 0xF0 then 0x90 ≤ b1 && b1 ≤ 0xBF
            else if b == 0xF4 then 0x80 ≤ b1 && b1 ≤ 0x8F
            else contByte b1) then
          match rest1 with
          | [] => errEmit err
          | b2 :: rest2 =>
            if contByte b2 then
              match rest2 with
              | [] => errEmit err
              | b3 :: rest3 =>
                if contByte b3 then
                  Char.ofNat ((b - 0xF0) * 0x40000 + (b1 - 0x80) * 0x1000
                      + (b2 - 0x80) * 0x40 + (b3 - 0x80))
                    :: utf8_decode_go err fuel rest3
                else errEmit err ++ utf8_decode_go err fuel rest2
            else errEmit err ++ utf8_decode_go err fuel rest1
        else errEmit err ++ utf8_decode_go err fuel bs
    else errEmit err ++ utf8_decode_go err fuel bs

/-- Model of CPython's UTF-8 decoder over a byte list: valid sequences
become scalar values; an invalid maximal subpart triggers the error
action and decoding resumes after the bytes consumed so far.  Range
checks follow the Unicode table (no overlongs, no surrogates, max
U+10FFFF), which is what CPython enforces. -/
def utf8_decode_with (err : Option Char) (bs : List Nat) : List Char :=
  utf8_decode_go err bs.length bs

/-- `payload.decode("utf-8", errors="ignore")`: undecodable bytes are
silently dropped. -/
def utf8_decode_ignore (bs : List Nat) : String :=
  String.mk (utf8_decode_with none bs)

/-- `payload.decode("utf-8", errors="replace")`: undecodable bytes
become the U+FFFD placeholder.  (Not what the source calls — kept as
the spec-side comparison point.) -/
def utf8_decode_replace (bs : List Nat) : String :=
  String.mk (utf8_decode_with (some (Char.ofNat 0xFFFD)) bs)

namespace TelloController

/-- `TelloController._listen` (lines 106-116): while `running and sock`,
a timeout continues the loop, an `OSError` breaks out, and a received
payload is decoded with `errors="ignore"` and logged as `<<< text`.
The event list stands for the successive results of `recvfrom`. -/
def listen_loop : List RecvEvent → World → World
  | [], w => w
  | e :: es, w =>
    if w.chan.running && w.chan.sock then
      match e with
      | .timeout => listen_loop es w
      | .os_error => w
      | .datagram payload =>
          listen_loop es (append_log ("<<< " ++ utf8_decode_ignore payload) w)
    else w

end TelloController

/-- `AppState.in_command_mode` (lines 139-141). -/
def AppState.in_command_mode (w : World) : Bool := w.command_mode

/-- `AppState.set_command_mode` (lines 135-137). -/
def AppState.set_command_mode (enabled : Bool) (w : World) : World :=
  { w with command_mode := enabled }

/-- `ensure_command_mode` (lines 229-237): returns immediately when the
flag is already set; otherwise sends `"command"` (whose lazy start may
raise, propagated here) and on success sets the flag. -/
def ensure_command_mode (o : Oracle) (w : World) :
    World × Except String (Bool × String) :=
  if AppState.in_command_mode w then
    (w, .ok (true, "Command mode already active."))
  else
    match TelloController.send_command o "command" w with
    | (w1, .error exc) => (w1, .error exc)
    | (w1, .ok true) =>
        (append_log "Command mode engaged." (AppState.set_command_mode true w1),
         .ok (true, "Command mode engaged."))
    | (w1, .ok false) =>
        (append_log "Failed to engage command mode." w1,
         .ok (false, "Unable to enter command mode."))

/-- `RequestHandler._handle_logs` part of `do_GET` (lines 537-544):
`lines = log_lines[start:]`, `next = start + len(lines)`.  Stated over
the log list itself; in the handler this runs under `log_lock` on the
global `log_lines`. -/
def get_logs (log_lines : List String) (start : Nat) : List String × Nat :=
  let lines := log_lines.drop start
  (lines, start + lines.length)

/-- Python's `str.strip()` with no argument: removes leading and
trailing whitespace. -/
def py_strip (s : String) : String :=
  String.mk (((s.data.dropWhile Char.isWhitespace).reverse.dropWhile
    Char.isWhitespace).reverse)

/-- An HTTP response produced by `RequestHandler`: either a JSON success
body (modelled by its `message` field) or `send_error(status, msg)`. -/
inductive HResp where
  | json (message : String)
  | httpError (status : Nat) (message : String)
deriving DecidableEq

/-- `RequestHandler._handle_command` (lines 625-644): empty command →
400; `"command"` → `ensure_command_mode`; anything else is rejected
with 400 "Enter command mode first." unless the mode flag is set, and
only then forwarded to the transport (send failure → 500). -/
def handle_command (o : Oracle) (commandRaw : String) (w : World) :
    World × Except String HResp :=
  let command := py_strip commandRaw
  if command = "" then (w, .ok (.httpError 400 "Command required"))
  else if command = "command" then
    match ensure_command_mode o w with
    | (w1, .error exc) => (w1, .error exc)
    | (w1, .ok (true, message)) => (w1, .ok (.json message))
    | (w1, .ok (false, message)) => (w1, .ok (.httpError 500 message))
  else if AppState.in_command_mode w = false then
    (w, .ok (.httpError 400 "Enter command mode first."))
  else
    match TelloController.send_command o command w with
    | (w1, .error exc) => (w1, .error exc)
    | (w1, .ok true) => (w1, .ok (.json "Command sent."))
    | (w1, .ok false) => (w1, .ok (.httpError 500 "Send failed."))

/-- `RequestHandler._handle_move` (lines 646-658): invalid direction →
400; mode flag unset → 400 "Enter command mode first."; otherwise send
`"{direction} {MOVE_DISTANCE_CM}"`. -/
def handle_move (o : Oracle) (directionRaw : String) (w : World) :
    World × Except String HResp :=
  let direction := py_strip directionRaw
  if ¬ (direction = "left" ∨ direction = "right" ∨ direction = "forward"
        ∨ direction = "back") then
    (w, .ok (.httpError 400 "Invalid direction"))
  else if AppState.in_command_mode w = false then
    (w, .ok (.httpError 400 "Enter command mode first."))
  else
    match TelloController.send_command o
        (direction ++ " " ++ toString MOVE_DISTANCE_CM) w with
    | (w1, .error exc) => (w1, .error exc)
    | (w1, .ok true) => (w1, .ok (.json (direction.capitalize ++ " sent.")))
    | (w1, .ok false) => (w1, .ok (.httpError 500 "Send failed."))

namespace VideoStreamer

/-- `VideoStreamer.get_frame` (lines 205-207): lock-guarded read of the
latest-frame cache. -/
def get_frame (w : World) : Option (List Nat) :=
  w.video.latest_frame

/-- Lines 174-180 of `VideoStreamer.start`: if the capture loop is
already running return "already running"; otherwise flip `running` and
spawn the capture thread. -/
def launch_capture (w : World) : World × Except String (Bool × String) :=
  if w.video.running then (w, .ok (true, "Video stream already running."))
  else
    ({ w with video := { w.video with running := true } },
     .ok (true, "Video stream starting."))

/-- `VideoStreamer.start` (lines 159-180): requires `cv2` and command
mode; sends `"streamon"` once per session (setting `stream_enabled`),
then hands over to the capture-thread launch.  A raise out of
`send_command` propagates. -/
def start (o : Oracle) (w : World) : World × Except String (Bool × String) :=
  if ¬ o.cv2Available then
    (append_log "OpenCV not installed. Video disabled." w,
     .ok (false, "Install opencv-python to enable video streaming."))
  else if AppState.in_command_mode w = false then
    (append_log "Video requested before command mode." w,
     .ok (false, "Enter command mode before starting the video stream."))
  else if ¬ w.video.stream_enabled then
    match TelloController.send_command o "streamon" w with
    | (w1, .error exc) => (w1, .error exc)
    | (w1, .ok false) =>
        (append_log "Failed to send streamon command." w1,
         .ok (false, "Drone rejected the streamon command."))
    | (w1, .ok true) =>
        launch_capture
          (append_log "Drone video stream enabled."
            { w1 with video := { w1.video with stream_enabled := true } })
  else launch_capture w

/-- One iteration's worth of input to the capture loop's read/encode
steps (lines 191-201): `cap.read()` fails, `cv2.imencode` fails, or a
frame is decoded to JPEG bytes. -/
inductive CaptureEvent where
  | read_fail
  | encode_fail
  | frame_ok (jpeg : List Nat)
deriving DecidableEq

/-- The `while self.running` body of `_capture_loop` (lines 191-201):
read failures and encode failures sleep briefly and continue; a
successful encode overwrites the latest-frame cache.  The event list
stands for the successive capture results; its exhaustion models
`running` being cleared externally by `stop()`. -/
def capture_frames : List CaptureEvent → World → World
  | [], w => w
  | e :: es, w =>
    if w.video.running then
      match e with
      | .read_fail => capture_frames es w
      | .encode_fail => capture_frames es w
      | .frame_ok jpeg =>
          capture_frames es
            { w with video := { w.video with latest_frame := some jpeg } }
    else w

/-- `VideoStreamer._capture_loop` (lines 182-203): logs the connection
attempt; if the capture source fails to open (`openOk = false`), logs
the failure, clears both `running` and `stream_enabled` and exits;
otherwise runs the read/encode loop. -/
def capture_loop (openOk : Bool) (events : List CaptureEvent) (w : World) : World :=
  let w1 := append_log "Connecting to Tello video feed..." w
  if ¬ openOk then
    { append_log "Unable to open the video stream. Check OpenCV/FFmpeg support." w1 with
      video := { w1.video with running := false, stream_enabled := false } }
  else capture_frames events w1

/-- `VideoStreamer.stop` (lines 209-217): clears `running`, joins the
capture thread, and if `stream_enabled` sends `"streamoff"` with the
flag cleared in a `finally` block — so the flag is cleared even when
`send_command` returns `false` or raises (the raise, modelled as
`some exc`, still propagates out of `stop`). -/
def stop (o : Oracle) (w : World) : World × Option String :=
  let w1 := { w with video := { w.video with running := false } }
  if w1.video.stream_enabled then
    match TelloController.send_command o "streamoff" w1 with
    | (w2, .error exc) =>
        ({ w2 with video := { w2.video with stream_enabled := false } }, some exc)
    | (w2, .ok _) =>
        ({ w2 with video := { w2.video with stream_enabled := false } }, none)
  else (w1, none)

end VideoStreamer

/-- A fresh process state: empty log, nothing sent, socket closed,
command mode off, video idle — the state right after module import. -/
def w0 : World :=
  { log := [], sent := [], attempts := 0,
    chan := { sock := false, running := false, receiver_threads := 0 },
    command_mode := false,
    video := { running := false, stream_enabled := false, latest_frame := none } }

/-- An environment where every transport operation succeeds. -/
def oracle_ok : Oracle :=
  { bindOk := true, bindErr := "", sendOk := fun _ => true,
    sendErr := fun _ => "", cv2Available := true }

/-- An environment where `socket.bind` raises `OSError` (port in use). -/
def oracle_bind_fail : Oracle :=
  { bindOk := false, bindErr := "[Errno 48] Address already in use",
    sendOk := fun _ => true, sendErr := fun _ => "", cv2Available := true }

/-- An environment where the socket binds but every `sendto` raises
`OSError` (e.g. network unreachable). -/
def oracle_send_fail : Oracle :=
  { bindOk := true, bindErr := "",
    sendOk := fun _ => false,
    sendErr := fun _ => "[Errno 51] Network is unreachable",
    cv2Available := true }

/-- A state already in command mode, as left by a successful
`ensure_command_mode` precondition. -/
def w_mode : World := { w0 with command_mode := true }

/-- A state whose channel is listening (socket bound, receiver loop
running), as produced by a successful `TelloController.start`. -/
def w_listening : World :=
  { w0 with chan := { sock := true, running := true, receiver_threads := 1 } }

theorem start_of_sock (o : Oracle) (w : World) (h : w.chan.sock = true) :
    TelloController.start o w = (w, none) := by
  unfold TelloController.start
  simp [h]

theorem start_of_bind (o : Oracle) (w : World) (h1 : w.chan.sock = false)
    (h2 : o.bindOk = true) :
    TelloController.start o w =
      (append_log "UDP socket ready on port 9000."
        { w with chan := { sock := true, running := true,
                           receiver_threads := w.chan.receiver_threads + 1 } },
       none) := by
  unfold TelloController.start
  simp [h1, h2]

theorem start_fst_state (o : Oracle) (w : World) :
    ((TelloController.start o w).1).command_mode = w.command_mode ∧
    ((TelloController.start o w).1).video = w.video ∧
    ((TelloController.start o w).1).sent = w.sent ∧
    ((TelloController.start o w).1).attempts = w.attempts := by
  unfold TelloController.start
  split
  · simp
  · split <;> simp [append_log]

theorem start_none_sock (o : Oracle) (w ws : World)
    (h : TelloController.start o w = (ws, none)) : ws.chan.sock = true := by
  unfold TelloController.start at h
  by_cases hs : w.chan.sock = true
  · simp [hs] at h
    exact h ▸ hs
  · rcases hb : o.bindOk
    · simp [hs, hb] at h
    · simp [hs, hb] at h
      rw [← h]
      simp [append_log]

theorem send_command_fst_video (o : Oracle) (c : String) (w : World) :
    ((TelloController.send_command o c w).1).video = w.video := by
  unfold TelloController.send_command
  rcases hs : TelloController.start o w with ⟨ws, os⟩
  have hv := (start_fst_state o w).2.1
  rw [hs] at hv
  have hv' : ws.video = w.video := by simpa using hv
  cases os
  · dsimp only
    split <;> simp [append_log, hv']
  · simpa using hv'

theorem send_command_ok_char (o : Oracle) (c : String) (w : World)
    (h1 : w.chan.sock = true ∨ o.bindOk = true)
    (h2 : o.sendOk w.attempts = true) :
    ∃ w1, TelloController.send_command o c w = (w1, .ok true) ∧
      w1.sent = w.sent ++ [c] ∧ w1.attempts = w.attempts + 1 ∧
      w1.command_mode = w.command_mode ∧ w1.video = w.video ∧
      w1.chan.sock = true ∧ w1.log.getLast? = some (">>> " ++ c) := by
  by_cases hs : w.chan.sock = true
  · have hse : TelloController.send_command o c w =
        (append_log (">>> " ++ c)
          { w with attempts := w.attempts + 1, sent := w.sent ++ [c] }, .ok true) := by
      unfold TelloController.send_command
      rw [start_of_sock o w hs]
      simp [h2]
    exact ⟨_, hse, by simp [append_log], by simp [append_log], by simp [append_log],
      by simp [append_log], by simp [append_log, hs], by simp [append_log]⟩
  · rcases h1 with h1 | h1
    · exact absurd h1 hs
    · have hb := start_of_bind o w (by simpa using hs) h1
      have hse : TelloController.send_command o c w =
          (append_log (">>> " ++ c)
            { log := w.log ++ ["UDP socket ready on port 9000."],
              sent := w.sent ++ [c],
              attempts := w.attempts + 1,
              chan := { sock := true, running := true,
                        receiver_threads := w.chan.receiver_threads + 1 },
              command_mode := w.command_mode,
              video := w.video }, .ok true) := by
        unfold TelloController.send_command
        rw [hb]
        simp [h2, append_log]
      exact ⟨_, hse, by simp [append_log], by simp [append_log], by simp [append_log],
        by simp [append_log], by simp [append_log], by simp [append_log]⟩

theorem send_command_fail_char (o : Oracle) (c : String) (w : World)
    (h1 : w.chan.sock = true ∨ o.bindOk = true)
    (h2 : o.sendOk w.attempts = false) :
    ∃ w1, TelloController.send_command o c w = (w1, .ok false) ∧
      w1.sent = w.sent ∧ w1.attempts = w.attempts + 1 ∧
      w1.command_mode = w.command_mode ∧ w1.video = w.video ∧
      w1.chan.sock = true ∧
      w1.log.getLast? = some ("Send failed: " ++ o.sendErr w.attempts) := by
  by_cases hs : w.chan.sock = true
  · have hse : TelloController.send_command o c w =
        (append_log ("Send failed: " ++ o.sendErr w.attempts)
          { w with attempts := w.attempts + 1 }, .ok false) := by
      unfold TelloController.send_command
      rw [start_of_sock o w hs]
      simp [h2]
    exact ⟨_, hse, by simp [append_log], by simp [append_log], by simp [append_log],
      by simp [append_log], by simp [append_log, hs], by simp [append_log]⟩
  · rcases h1 with h1 | h1
    · exact absurd h1 hs
    · have hb := start_of_bind o w (by simpa using hs) h1
      have hse : TelloController.send_command o c w =
          (append_log ("Send failed: " ++ o.sendErr w.attempts)
            { log := w.log ++ ["UDP socket ready on port 9000."],
              sent := w.sent,
              attempts := w.attempts + 1,
              chan := { sock := true, running := true,
                        receiver_threads := w.chan.receiver_threads + 1 },
              command_mode := w.command_mode,
              video := w.video }, .ok false) := by
        unfold TelloController.send_command
        rw [hb]
        simp [h2, append_log]
      exact ⟨_, hse, by simp [append_log], by simp [append_log], by simp [append_log],
        by simp [append_log], by simp [append_log], by simp [append_log]⟩

theorem send_command_true_inv (o : Oracle) (c : String) (w w1 : World)
    (h : TelloController.send_command o c w = (w1, .ok true)) :
    w1.sent = w.sent ++ [c] ∧ w1.command_mode = w.command_mode ∧
    w1.video = w.video ∧ w1.chan.sock = true ∧ w1.attempts = w.attempts + 1 := by
  unfold TelloController.send_command at h
  rcases hs : TelloController.start o w with ⟨ws, os⟩
  rw [hs] at h
  have hst := start_fst_state o w
  rw [hs] at hst
  cases os
  · dsimp only at h
    split at h
    · have hw1 : append_log (">>> " ++ c)
          { ws with attempts := ws.attempts + 1, sent := ws.sent ++ [c] } = w1 := by
        simpa using congrArg Prod.fst h
      have hsock := start_none_sock o w ws hs
      rw [← hw1]
      simp [append_log]
      refine ⟨?_, ?_, ?_, ?_, ?_⟩ <;> simp_all
    · simp at h
  · simp at h

/-- C1: for every command text other than "command" itself, a send
request issued while `in_command_mode` is false is rejected with the
mode-error response (HTTP 400 "Enter command mode first."), distinct
from the transport-failure response (HTTP 500 "Send failed."); the
world — transport, datagrams and log — is untouched, so no `>>> ` log
line is appended.  Both command-sending entry points
(`_handle_command`, `_handle_move`) are covered. -/
theorem C1_mode_gate_rejects_without_transport (o : Oracle) (w : World)
    (command direction : String)
    (hmode : AppState.in_command_mode w = false)
    (hcmd : py_strip command ≠ "command")
    (hdir : py_strip direction = "left" ∨ py_strip direction = "right" ∨
            py_strip direction = "forward" ∨ py_strip direction = "back") :
    (handle_command o command w).1 = w ∧
    (py_strip command ≠ "" →
      handle_command o command w
        = (w, .ok (.httpError 400 "Enter command mode first."))) ∧
    handle_move o direction w
      = (w, .ok (.httpError 400 "Enter command mode first.")) ∧
    HResp.httpError 400 "Enter command mode first."
      ≠ HResp.httpError 500 "Send failed." := by
  refine ⟨?_, ?_, ?_, by simp⟩
  · by_cases he : py_strip command = ""
    · simp [handle_command, he]
    · simp [handle_command, he, hcmd, hmode]
  · intro he
    simp [handle_command, he, hcmd, hmode]
  · rcases hdir with h | h | h | h <;> simp [handle_move, h, hmode]

/-- C1 witness: a concrete movement command sent on a fresh state. -/
theorem C1_witness :
    AppState.in_command_mode w0 = false ∧
    py_strip "left 50" ≠ "command" ∧
    py_strip "left" = "left" ∧
    (handle_command oracle_ok "left 50" w0).1 = w0 ∧
    handle_command oracle_ok "left 50" w0
      = (w0, .ok (.httpError 400 "Enter command mode first.")) ∧
    handle_move oracle_ok "left" w0
      = (w0, .ok (.httpError 400 "Enter command mode first.")) := by
  have h := C1_mode_gate_rejects_without_transport oracle_ok w0 "left 50" "left"
    rfl (by decide) (Or.inl (by decide))
  exact ⟨rfl, by decide, by decide, h.1, h.2.1 (by decide), h.2.2.1⟩

/-- C2: if `ensure_command_mode` starts from a disengaged state and its
first call succeeds, the `"command"` datagram is transmitted exactly
once across the two calls (the sent list grows by exactly `["command"]`
on the first call and not at all on the second), and the second call
returns `(true, "Command mode already active.")` with the world
unchanged. -/
theorem C2_ensure_command_mode_sends_once (o o2 : Oracle) (w w1 : World)
    (msg : String)
    (hmode : AppState.in_command_mode w = false)
    (h : ensure_command_mode o w = (w1, .ok (true, msg))) :
    w1.sent = w.sent ++ ["command"] ∧
    ensure_command_mode o2 w1 = (w1, .ok (true, "Command mode already active.")) := by
  unfold ensure_command_mode at h
  rw [hmode] at h
  simp only [Bool.false_eq_true, if_false] at h
  rcases hse : TelloController.send_command o "command" w with ⟨w2, r⟩
  rw [hse] at h
  match r with
  | .error e => simp at h
  | .ok false => simp at h
  | .ok true =>
    have hw1 : append_log "Command mode engaged."
        (AppState.set_command_mode true w2) = w1 := by
      have := congrArg Prod.fst h
      simpa using this
    obtain ⟨hsent, _, _, _, _⟩ := send_command_true_inv o "command" w w2 hse
    constructor
    · rw [← hw1]
      simp [append_log, AppState.set_command_mode, hsent]
    · have hm1 : AppState.in_command_mode w1 = true := by
        rw [← hw1]
        simp [append_log, AppState.set_command_mode, AppState.in_command_mode]
      unfold ensure_command_mode
      rw [hm1]
      simp

/-- C2 witness: a fresh state with a fully-working transport. -/
theorem C2_witness :
    AppState.in_command_mode w0 = false ∧
    ((ensure_command_mode oracle_ok w0).1.sent = w0.sent ++ ["command"] ∧
     ensure_command_mode oracle_ok (ensure_command_mode oracle_ok w0).1
       = ((ensure_command_mode oracle_ok w0).1,
          .ok (true, "Command mode already active."))) :=
  ⟨rfl, C2_ensure_command_mode_sends_once oracle_ok oracle_ok w0
    (ensure_command_mode oracle_ok w0).1 "Command mode engaged." rfl rfl⟩

/-- C3 counterexample: on a fresh channel whose local port is already
in use, `send_command("left 50")` does NOT return a boolean — the
`OSError` raised by `socket.bind` inside the implicit lazy `start()`
(which the source places outside its `try` block) propagates to the
caller, modelled as `Except.error`.  No log line is appended either. -/
theorem C3_counterexample :
    TelloController.send_command oracle_bind_fail "left 50" w0
      = (w0, Except.error "[Errno 48] Address already in use") := by
  have hs : TelloController.start oracle_bind_fail w0
      = (w0, some "[Errno 48] Address already in use") := by
    unfold TelloController.start
    simp [w0, oracle_bind_fail]
  unfold TelloController.send_command
  rw [hs]

/-- C3 (amended): provided the socket is already open or the lazy
start's bind succeeds, `send_command` never raises: it returns a
boolean, a send failure is converted to `false` plus a trailing
`Send failed: ...` log line with nothing transmitted, and a success
transmits the datagram and logs `>>> text`. -/
theorem C3_no_raise_after_bind (o : Oracle) (command : String) (w : World)
    (h : w.chan.sock = true ∨ o.bindOk = true) :
    ∃ w1 b, TelloController.send_command o command w = (w1, Except.ok b) ∧
      (b = true → w1.sent = w.sent ++ [command] ∧
        w1.log.getLast? = some (">>> " ++ command)) ∧
      (b = false → w1.sent = w.sent ∧
        w1.log.getLast? = some ("Send failed: " ++ o.sendErr w.attempts)) := by
  cases hso : o.sendOk w.attempts with
  | false =>
    obtain ⟨w1, hse, hsent, _, _, _, _, hlast⟩ :=
      send_command_fail_char o command w h hso
    exact ⟨w1, false, hse, by simp, fun _ => ⟨hsent, hlast⟩⟩
  | true =>
    obtain ⟨w1, hse, hsent, _, _, _, _, hlast⟩ :=
      send_command_ok_char o command w h hso
    exact ⟨w1, true, hse, fun _ => ⟨hsent, hlast⟩, by simp⟩

/-- C3 witness: a bound socket whose sends fail still yields a boolean
result, never an exception. -/
theorem C3_witness :
    (w_listening.chan.sock = true ∨ oracle_send_fail.bindOk = true) ∧
    (∃ w1 b,
      TelloController.send_command oracle_send_fail "left 50" w_listening
        = (w1, Except.ok b) ∧
      (b = true → w1.sent = w_listening.sent ++ ["left 50"] ∧
        w1.log.getLast? = some (">>> " ++ "left 50")) ∧
      (b = false → w1.sent = w_listening.sent ∧
        w1.log.getLast? = some ("Send failed: "
          ++ oracle_send_fail.sendErr w_listening.attempts))) :=
  ⟨Or.inl rfl,
   C3_no_raise_after_bind oracle_send_fail "left 50" w_listening (Or.inl rfl)⟩

/-- C4: incremental log polling re-delivers nothing and skips nothing:
`get_logs` at 0 returns every line; feeding the returned `next` index
back after `extra` lines were appended returns exactly `extra`; the
two deliveries concatenate to the whole log; and in general the
returned index equals the supplied index plus the number of lines
returned. -/
theorem C4_log_polling_exact (log_lines extra : List String) :
    (∀ (l : List String) (i : Nat),
      (get_logs l i).2 = i + (get_logs l i).1.length) ∧
    get_logs log_lines 0 = (log_lines, log_lines.length) ∧
    get_logs (log_lines ++ extra) (get_logs log_lines 0).2
      = (extra, log_lines.length + extra.length) ∧
    (get_logs log_lines 0).1
      ++ (get_logs (log_lines ++ extra) (get_logs log_lines 0).2).1
      = log_lines ++ extra := by
  refine ⟨fun l i => rfl, ?_, ?_, ?_⟩ <;>
    simp [get_logs, List.drop_left]

/-- C9: a `from` index strictly beyond the current log length is not
clamped: `get_logs` returns no lines and echoes the index back
unchanged, so such a caller receives nothing until the log grows past
the index. -/
theorem C9_out_of_range_index_echoed (log_lines : List String) (start : Nat)
    (h : log_lines.length < start) :
    get_logs log_lines start = ([], start) := by
  have hd : log_lines.drop start = [] :=
    List.drop_eq_nil_of_le (Nat.le_of_lt h)
  simp [get_logs, hd]

/-- C9 witness: polling from index 5 of a one-line log. -/
theorem C9_witness :
    (["UDP socket ready on port 9000."] : List String).length < 5 ∧
    get_logs ["UDP socket ready on port 9000."] 5 = ([], 5) :=
  ⟨by decide, C9_out_of_range_index_echoed ["UDP socket ready on port 9000."] 5
    (by decide)⟩

theorem launch_capture_not_running (w : World) (h : w.video.running = false) :
    VideoStreamer.launch_capture w
      = ({ w with video := { w.video with running := true } },
         .ok (true, "Video stream starting.")) := by
  unfold VideoStreamer.launch_capture
  simp [h]

theorem launch_capture_fst_sent (w : World) :
    ((VideoStreamer.launch_capture w).1).sent = w.sent := by
  unfold VideoStreamer.launch_capture
  split <;> simp

theorem capture_loop_open_fail (events : List VideoStreamer.CaptureEvent)
    (w : World) :
    VideoStreamer.capture_loop false events w
      = { w with
          log := w.log ++ ["Connecting to Tello video feed...",
            "Unable to open the video stream. Check OpenCV/FFmpeg support."],
          video := { w.video with running := false, stream_enabled := false } } := by
  unfold VideoStreamer.capture_loop
  simp [append_log]


theorem capture_loop_fail_fields (events : List VideoStreamer.CaptureEvent)
    (w : World) :
    (VideoStreamer.capture_loop false events w).video.running = false ∧
    (VideoStreamer.capture_loop false events w).video.stream_enabled = false ∧
    (VideoStreamer.capture_loop false events w).command_mode = w.command_mode ∧
    (VideoStreamer.capture_loop false events w).chan = w.chan ∧
    (VideoStreamer.capture_loop false events w).sent = w.sent ∧
    (VideoStreamer.capture_loop false events w).attempts = w.attempts := by
  rw [capture_loop_open_fail]
  exact ⟨rfl, rfl, rfl, rfl, rfl, rfl⟩

theorem video_start_fresh (o : Oracle) (w : World)
    (hcv : o.cv2Available = true)
    (hmode : AppState.in_command_mode w = true)
    (hse : w.video.stream_enabled = false)
    (hrun : w.video.running = false)
    (hb : w.chan.sock = true ∨ o.bindOk = true)
    (hsend : o.sendOk w.attempts = true) :
    ∃ w1, VideoStreamer.start o w = (w1, .ok (true, "Video stream starting.")) ∧
      w1.video.stream_enabled = true ∧ w1.video.running = true ∧
      w1.video.latest_frame = w.video.latest_frame ∧
      w1.sent = w.sent ++ ["streamon"] ∧
      w1.command_mode = w.command_mode ∧ w1.chan.sock = true := by
  obtain ⟨ws, hsendeq, hsent, hatt, hmodeq, hvid, hsock, _⟩ :=
    send_command_ok_char o "streamon" w hb hsend
  have hwsrun : ws.video.running = false := by rw [hvid]; exact hrun
  have hstart : VideoStreamer.start o w =
      VideoStreamer.launch_capture
        (append_log "Drone video stream enabled."
          { ws with video := { ws.video with stream_enabled := true } }) := by
    unfold VideoStreamer.start
    simp [hcv, hmode, hse, hsendeq]
  rw [launch_capture_not_running _ (by simp [append_log, hwsrun])] at hstart
  refine ⟨_, hstart, ?_, ?_, ?_, ?_, ?_, ?_⟩ <;>
    simp [append_log, hsent, hmodeq, hvid, hsock]

/-- C5: when `VideoStreamer.start` succeeds at the protocol step
(`streamon` transmitted, `stream_enabled` set) but the capture source
then fails to open, the capture loop clears both `running` and
`stream_enabled` and exits, and a subsequent `start` in command mode
re-attempts the stream-on command (the sent-datagram list grows by
`["streamon"]` again). -/
theorem C5_capture_open_failure_reverts (o : Oracle) (w : World)
    (events : List VideoStreamer.CaptureEvent)
    (hcv : o.cv2Available = true)
    (hmode : AppState.in_command_mode w = true)
    (hse : w.video.stream_enabled = false)
    (hrun : w.video.running = false)
    (hb : w.chan.sock = true ∨ o.bindOk = true)
    (hsend : o.sendOk w.attempts = true) :
    ∃ w1, VideoStreamer.start o w = (w1, .ok (true, "Video stream starting.")) ∧
      w1.video.stream_enabled = true ∧ w1.video.running = true ∧
      w1.sent = w.sent ++ ["streamon"] ∧
      (VideoStreamer.capture_loop false events w1).video.running = false ∧
      (VideoStreamer.capture_loop false events w1).video.stream_enabled = false ∧
      (∀ o2 : Oracle, o2.cv2Available = true →
        o2.sendOk (VideoStreamer.capture_loop false events w1).attempts = true →
        ∃ w3,
          VideoStreamer.start o2 (VideoStreamer.capture_loop false events w1)
            = (w3, .ok (true, "Video stream starting.")) ∧
          w3.sent = (VideoStreamer.capture_loop false events w1).sent
            ++ ["streamon"]) := by
  obtain ⟨w1, hstart, hse1, hrun1, _, hsent1, hmode1, hsock1⟩ :=
    video_start_fresh o w hcv hmode hse hrun hb hsend
  obtain ⟨hrun2, hse2, hmode2, hchan2, hsent2, hatt2⟩ :=
    capture_loop_fail_fields events w1
  refine ⟨w1, hstart, hse1, hrun1, hsent1, hrun2, hse2, ?_⟩
  intro o2 hcv2 hsend2
  have hmode2' : AppState.in_command_mode
      (VideoStreamer.capture_loop false events w1) = true := by
    show (VideoStreamer.capture_loop false events w1).command_mode = true
    rw [hmode2, hmode1]
    exact hmode
  have hsock2 : (VideoStreamer.capture_loop false events w1).chan.sock = true := by
    rw [hchan2]
    exact hsock1
  obtain ⟨w3, hstart3, _, _, _, hsent3, _, _⟩ :=
    video_start_fresh o2 (VideoStreamer.capture_loop false events w1)
      hcv2 hmode2' hse2 hrun2 (Or.inl hsock2) hsend2
  exact ⟨w3, hstart3, hsent3⟩

/-- C5 witness: a fresh in-command-mode state with a working transport
and an empty capture-event trace. -/
theorem C5_witness :
    oracle_ok.cv2Available = true ∧
    AppState.in_command_mode w_mode = true ∧
    w_mode.video.stream_enabled = false ∧
    w_mode.video.running = false ∧
    oracle_ok.sendOk w_mode.attempts = true ∧
    (∃ w1, VideoStreamer.start oracle_ok w_mode
        = (w1, .ok (true, "Video stream starting.")) ∧
      w1.video.stream_enabled = true ∧ w1.video.running = true ∧
      w1.sent = w_mode.sent ++ ["streamon"] ∧
      (VideoStreamer.capture_loop false [] w1).video.running = false ∧
      (VideoStreamer.capture_loop false [] w1).video.stream_enabled = false ∧
      (∀ o2 : Oracle, o2.cv2Available = true →
        o2.sendOk (VideoStreamer.capture_loop false [] w1).attempts = true →
        ∃ w3,
          VideoStreamer.start o2 (VideoStreamer.capture_loop false [] w1)
            = (w3, .ok (true, "Video stream starting.")) ∧
          w3.sent = (VideoStreamer.capture_loop false [] w1).sent
            ++ ["streamon"])) :=
  ⟨rfl, rfl, rfl, rfl, rfl,
   C5_capture_open_failure_reverts oracle_ok w_mode [] rfl rfl rfl rfl
     (Or.inr rfl) rfl⟩

/-- C6: `VideoStreamer.stop` never touches the latest-frame cache:
`get_frame` returns exactly the same value (bytes or `none`) before
and after `stop`, in every state and environment — including when the
stream-off send fails or raises. -/
theorem C6_stop_preserves_frame (o : Oracle) (w : World) :
    VideoStreamer.get_frame (VideoStreamer.stop o w).1
      = VideoStreamer.get_frame w := by
  rcases hse : TelloController.send_command o "streamoff"
      { w with video := { w.video with running := false } } with ⟨w2, r⟩
  have hv := send_command_fst_video o "streamoff"
      { w with video := { w.video with running := false } }
  rw [hse] at hv
  have hv2 : w2.video.latest_frame = w.video.latest_frame := by
    have : w2.video = { w.video with running := false } := by simpa using hv
    rw [this]
  unfold VideoStreamer.stop
  simp only [VideoStreamer.get_frame]
  split
  · rw [hse]
    cases r <;> simp [hv2]
  · rfl

/-- C10: `VideoStreamer.stop` on a state with `stream_enabled = true`
always leaves `stream_enabled = false`: the clear sits in a `finally`
block, so it happens whether the `streamoff` send succeeds, returns
`false`, or raises. -/
theorem C10_stop_always_clears_stream_enabled (o : Oracle) (w : World)
    (h : w.video.stream_enabled = true) :
    ((VideoStreamer.stop o w).1).video.stream_enabled = false := by
  unfold VideoStreamer.stop
  simp only []
  split
  · split <;> simp
  · next hcond =>
    exact absurd h (by simpa using hcond)

/-- A state that is streaming video: command mode on, stream enabled,
capture loop running, one decoded JPEG frame cached. -/
def w_streaming : World :=
  { w_mode with video := { running := true, stream_enabled := true,
                           latest_frame := some [0xFF, 0xD8, 0xFF, 0xD9] } }

/-- C10 witness: `stop` on a streaming state whose `streamoff` send
raises (bind failure in the lazy start) still clears the flag. -/
theorem C10_witness :
    w_streaming.video.stream_enabled = true ∧
    ((VideoStreamer.stop oracle_bind_fail w_streaming).1).video.stream_enabled
      = false :=
  ⟨rfl, C10_stop_always_clears_stream_enabled oracle_bind_fail w_streaming rfl⟩

/-- The payloads the receiver loop actually processes: every datagram
before the first `OSError` (which breaks the loop); timeouts are
skipped. -/
def received_before_error : List RecvEvent → List (List Nat)
  | [] => []
  | RecvEvent.timeout :: es => received_before_error es
  | RecvEvent.os_error :: _ => []
  | RecvEvent.datagram payload :: es => payload :: received_before_error es

/-- C7 counterexample: payload `[0xFF, 0x61]` contains the undecodable
byte `0xFF`.  The receiver loop logs `<<< a` — the bad byte is
silently dropped (`errors="ignore"`), with no placeholder: the
placeholder decode (`errors="replace"`) of the same payload differs
from what was logged. -/
theorem C7_counterexample :
    (TelloController.listen_loop [RecvEvent.datagram [0xFF, 0x61]]
      w_listening).log = ["<<< a"] ∧
    utf8_decode_ignore [0xFF, 0x61] = "a" ∧
    utf8_decode_replace [0xFF, 0x61] ≠ utf8_decode_ignore [0xFF, 0x61] := by
  refine ⟨?_, ?_, ?_⟩ <;> decide

/-- C7 (amended): while listening, every successfully received datagram
payload (up to the first `OSError`, which ends the loop) is decoded
best-effort with undecodable bytes silently dropped — not replaced by
a placeholder — and one `<<< text` log line is appended for it. -/
theorem C7_receive_logs_decoded_ignoring (w : World) (events : List RecvEvent)
    (hrun : w.chan.running = true) (hsock : w.chan.sock = true) :
    (TelloController.listen_loop events w).log
      = w.log ++ (received_before_error events).map
          (fun payload => "<<< " ++ utf8_decode_ignore payload) := by
  induction events generalizing w with
  | nil => simp [TelloController.listen_loop, received_before_error]
  | cons e es ih =>
    unfold TelloController.listen_loop
    rw [hrun, hsock]
    simp only [Bool.and_self, if_true]
    cases e with
    | timeout =>
      rw [ih w hrun hsock]
      simp [received_before_error]
    | os_error => simp [received_before_error]
    | datagram payload =>
      rw [ih (append_log ("<<< " ++ utf8_decode_ignore payload) w)
        (by simp [append_log, hrun]) (by simp [append_log, hsock])]
      simp [append_log, received_before_error]

/-- C7 witness: an ASCII payload `"ok"` received while listening. -/
theorem C7_witness :
    w_listening.chan.running = true ∧ w_listening.chan.sock = true ∧
    (TelloController.listen_loop [RecvEvent.datagram [0x6F, 0x6B]]
      w_listening).log
      = w_listening.log
        ++ (received_before_error [RecvEvent.datagram [0x6F, 0x6B]]).map
            (fun payload => "<<< " ++ utf8_decode_ignore payload) :=
  ⟨rfl, rfl, C7_receive_logs_decoded_ignoring w_listening
    [RecvEvent.datagram [0x6F, 0x6B]] rfl rfl⟩

/-- C8: `TelloController.start` is idempotent: from a fresh channel a
successful first call binds the socket and spawns exactly one receiver
thread, and a second call — under any environment — is a silent no-op:
it returns the state unchanged, raises no bind error, and performs no
side effect. -/
theorem C8_start_idempotent (o o2 : Oracle) (w w1 : World)
    (hsock : w.chan.sock = false)
    (hthreads : w.chan.receiver_threads = 0)
    (h : TelloController.start o w = (w1, none)) :
    w1.chan.sock = true ∧ w1.chan.running = true ∧
    w1.chan.receiver_threads = 1 ∧
    TelloController.start o2 w1 = (w1, none) := by
  cases hb : o.bindOk with
  | false =>
    unfold TelloController.start at h
    simp [hsock, hb] at h
  | true =>
    rw [start_of_bind o w hsock hb] at h
    have hw1 : append_log "UDP socket ready on port 9000."
        { w with chan := { sock := true, running := true,
                           receiver_threads := w.chan.receiver_threads + 1 } }
        = w1 := by
      simpa using congrArg Prod.fst h
    have hs1 : w1.chan.sock = true := by rw [← hw1]; simp [append_log]
    refine ⟨hs1, ?_, ?_, start_of_sock o2 w1 hs1⟩
    · rw [← hw1]; simp [append_log]
    · rw [← hw1]; simp [append_log, hthreads]

/-- C8 witness: two consecutive `start` calls on a fresh state. -/
theorem C8_witness :
    w0.chan.sock = false ∧ w0.chan.receiver_threads = 0 ∧
    ((TelloController.start oracle_ok w0).1.chan.sock = true ∧
     (TelloController.start oracle_ok w0).1.chan.running = true ∧
     (TelloController.start oracle_ok w0).1.chan.receiver_threads = 1 ∧
     TelloController.start oracle_ok (TelloController.start oracle_ok w0).1
       = ((TelloController.start oracle_ok w0).1, none)) :=
  ⟨rfl, rfl, C8_start_idempotent oracle_ok oracle_ok w0
    (TelloController.start oracle_ok w0).1 rfl rfl rfl⟩
